import Mathlib

/-
Verification development for a small story CRUD HTTP API.
The service code is shallowly embedded below: JavaScript string primitives
(trim, parseInt, the script-tag-stripping regex) are modelled over List Char,
the in-memory rate limiter as explicit state passing, the MongoDB collection
as a list of documents, and each route handler as a pure function from the
request and the collection to an outcome and the new collection.
-/

set_option maxHeartbeats 1000000

/- ===== JavaScript string primitives ===== -/

/-- The JavaScript whitespace set used by String.prototype.trim and parseInt:
WhiteSpace (TAB, VT, FF, SP, NBSP, ZWNBSP, Unicode Zs) plus LineTerminator. -/
def isJsWhitespace (c : Char) : Bool :=
  c.toNat = 9 || c.toNat = 10 || c.toNat = 11 || c.toNat = 12 || c.toNat = 13 ||
  c.toNat = 32 || c.toNat = 160 || c.toNat = 5760 ||
  (8192 ≤ c.toNat && c.toNat ≤ 8202) ||
  c.toNat = 8232 || c.toNat = 8233 || c.toNat = 8239 || c.toNat = 8287 ||
  c.toNat = 12288 || c.toNat = 65279

/-- Drop leading JavaScript whitespace. -/
def jsTrimLeft (l : List Char) : List Char := l.dropWhile isJsWhitespace

/-- Drop trailing JavaScript whitespace. -/
def jsTrimRight (l : List Char) : List Char :=
  (l.reverse.dropWhile isJsWhitespace).reverse

/-- Model of String.prototype.trim on the character list. -/
def jsTrimList (l : List Char) : List Char := jsTrimRight (jsTrimLeft l)

/-- ASCII case-insensitive comparison of a subject character against a
lowercase pattern character, as the regex flag i does for ASCII patterns. -/
def ciCharEq (c p : Char) : Bool :=
  c == p || (decide (65 ≤ c.toNat) && decide (c.toNat ≤ 90) && (c.toNat + 32 == p.toNat))

/-- Match a lowercase pattern case-insensitively at the head of the input,
returning the rest of the input on success. -/
def startsWithCI : List Char → List Char → Option (List Char)
  | [], l => some l
  | _ :: _, [] => none
  | p :: ps, c :: cs => if ciCharEq c p then startsWithCI ps cs else none

/-- Regex word character, the class backslash-w: ASCII letters, digits, underscore. -/
def isWordChar (c : Char) : Bool :=
  (65 ≤ c.toNat && c.toNat ≤ 90) || (97 ≤ c.toNat && c.toNat ≤ 122) ||
  (48 ≤ c.toNat && c.toNat ≤ 57) || c == '_'

/-- The regex word-boundary test after the literal script, which is a word
character: boundary holds when the input is exhausted or continues with a
non-word character. -/
def wordBoundaryOk : List Char → Bool
  | [] => true
  | c :: _ => !isWordChar c

/-- After the opening tag of the script regex has matched, scan the body:
consume non-angle-bracket characters, and at each angle bracket either finish
on a closing script tag or consume the bracket and continue.  This is the
deterministic behaviour of the greedy body of the pattern. -/
def scriptBody : List Char → Option (List Char)
  | [] => none
  | c :: cs =>
    if c = '<' then
      match startsWithCI ("</script>".data) (c :: cs) with
      | some rest => some rest
      | none => scriptBody cs
    else scriptBody cs

/-- Try to match the whole script-tag regex at the head of the input,
returning the input remaining after the match. -/
def matchScriptAt (l : List Char) : Option (List Char) :=
  match startsWithCI ("<script".data) l with
  | none => none
  | some rest => if wordBoundaryOk rest then scriptBody rest else none

/-- Global regex replacement with the empty string: scan left to right,
removing each leftmost match and continuing after it.  The fuel argument
bounds the recursion; every step strictly shortens the input or moves one
character to the output, so fuel equal to the input length never runs out. -/
def stripScriptsAux : Nat → List Char → List Char
  | 0, l => l
  | _, [] => []
  | fuel + 1, c :: cs =>
    match matchScriptAt (c :: cs) with
    | some rest => stripScriptsAux fuel rest
    | none => c :: stripScriptsAux fuel cs

/-- Remove every match of the script-tag regex, as the global replace does. -/
def stripScripts (l : List Char) : List Char := stripScriptsAux l.length l

/-- sanitizeString from the service: trim, then strip script-tag matches. -/
def sanitizeString (s : String) : String :=
  String.mk (stripScripts (jsTrimList s.data))

/- ===== JavaScript parseInt and the pagination clamps ===== -/

/-- Numeric value of a hexadecimal digit character, if any. -/
def charDigitVal (c : Char) : Option Nat :=
  if 48 ≤ c.toNat ∧ c.toNat ≤ 57 then some (c.toNat - 48)
  else if 97 ≤ c.toNat ∧ c.toNat ≤ 102 then some (c.toNat - 87)
  else if 65 ≤ c.toNat ∧ c.toNat ≤ 70 then some (c.toNat - 55)
  else none

/-- Model of JavaScript parseInt with no radix argument: skip leading
whitespace, optional sign, optional hex prefix, then the longest run of
digits of the radix; none models NaN. -/
def jsParseInt (s : String) : Option Int :=
  let l0 := s.data.dropWhile isJsWhitespace
  let sl : Int × List Char :=
    match l0 with
    | '-' :: r => (-1, r)
    | '+' :: r => (1, r)
    | _ => (1, l0)
  let rl : Nat × List Char :=
    match sl.2 with
    | '0' :: 'x' :: r => (16, r)
    | '0' :: 'X' :: r => (16, r)
    | _ => (10, sl.2)
  let ds := rl.2.takeWhile (fun c =>
    match charDigitVal c with
    | some v => decide (v < rl.1)
    | none => false)
  if ds.isEmpty then none
  else some (sl.1 * Int.ofNat (ds.foldl (fun acc c => acc * rl.1 + (charDigitVal c).getD 0) 0))

/-- JavaScript or-default on an optional query string: undefined and the
empty string are falsy and give the default. -/
def jsOrDefault (q : Option String) (dflt : String) : String :=
  match q with
  | none => dflt
  | some s => if s = "" then dflt else s

/-- The page number computed by the list handler:
Math.max(1, parseInt(query.page or 1)); none models NaN. -/
def pageOf (q : Option String) : Option Int :=
  (jsParseInt (jsOrDefault q ("1"))).map (fun n => max 1 n)

/-- The page size computed by the list handler:
Math.min(50, Math.max(1, parseInt(query.limit or 10))); none models NaN. -/
def limitOf (q : Option String) : Option Int :=
  (jsParseInt (jsOrDefault q ("10"))).map (fun n => min 50 (max 1 n))

/- ===== The in-memory rate limiter ===== -/

structure RLEntry where
  count : Nat
  resetTime : Nat
deriving DecidableEq

abbrev RLStore := String → Option RLEntry

def emptyRLStore : RLStore := fun _ => none

def rlSet (st : RLStore) (ip : String) (e : RLEntry) : RLStore :=
  fun k => if k = ip then some e else st k

/-- Client identifier derivation: the forwarded-address header, with the
falsy values undefined and empty string replaced by the sentinel. -/
def clientIdOf (h : Option String) : String := jsOrDefault h ("unknown")

/-- simpleRateLimit from the service, with the mutable map made explicit:
a fresh or expired entry resets to count 1 and allows; at or above the
limit the call is rejected without incrementing; otherwise the count
increments and the call is allowed. -/
def simpleRateLimit (st : RLStore) (clientIP : String) (maxRequests windowMs now : Nat) :
    Bool × RLStore :=
  match st clientIP with
  | none => (true, rlSet st clientIP ⟨1, now + windowMs⟩)
  | some client =>
    if client.resetTime < now then (true, rlSet st clientIP ⟨1, now + windowMs⟩)
    else if maxRequests ≤ client.count then (false, st)
    else (true, rlSet st clientIP ⟨client.count + 1, client.resetTime⟩)

/-- Run the rate limiter over a list of request times, collecting the
allow/reject decisions and the final store. -/
def rlRun (ip : String) (maxRequests windowMs : Nat) : RLStore → List Nat → List Bool × RLStore
  | st, [] => ([], st)
  | st, t :: ts =>
    let step := simpleRateLimit st ip maxRequests windowMs t
    let rest := rlRun ip maxRequests windowMs step.2 ts
    (step.1 :: rest.1, rest.2)

/- ===== Data model and image validation ===== -/

def MAX_DB_FILE_SIZE : Nat := 10 * 1024 * 1024

def ALLOWED_IMAGE_TYPES : List String :=
  ["image/jpeg", "image/png", "image/gif", "image/webp"]

def MAX_TITLE_LENGTH : Nat := 200
def MAX_CONTENT_LENGTH : Nat := 10000
def MAX_WRITER_LENGTH : Nat := 100

/-- An image document embedded in a story, as stored in the collection. -/
structure StoredImage where
  data : List Nat
  contentType : String
  filename : String
  size : Nat
deriving DecidableEq

/-- An uploaded multipart file descriptor: declared type, declared byte
size, name and content bytes. -/
structure ImgFile where
  type : String
  size : Nat
  name : String
  bytes : List Nat
deriving DecidableEq

/-- validateImageFile from the service: reject a type outside the allow-list,
then a declared size strictly above the cap; otherwise pass. -/
def validateImageFile (file : ImgFile) : Option String :=
  if file.type ∉ ALLOWED_IMAGE_TYPES then
    some "Invalid file type. Only JPEG, PNG, GIF, and WebP are allowed."
  else if MAX_DB_FILE_SIZE < file.size then
    some "File size too large. Maximum size is 10MB."
  else none

/-- processImageForDB from the service: package the file for storage. -/
def processImageForDB (file : ImgFile) : StoredImage :=
  ⟨file.bytes, file.type, file.name, file.size⟩

/-- A story document in the collection. -/
structure StoryDoc where
  id : Nat
  title : String
  writter : String
  story_content : String
  image : Option StoredImage
  createdAt : Nat
  updatedAt : Nat
deriving DecidableEq

/-- The image metadata object the handlers place in responses instead of
the binary payload; the whole field is null when the story has no image. -/
structure ImageMeta where
  filename : String
  contentType : String
  size : Nat
  hasImage : Bool
deriving DecidableEq

def storyResponseImage (s : StoryDoc) : Option ImageMeta :=
  s.image.map (fun i => ⟨i.filename, i.contentType, i.size, true⟩)

/- ===== Create handler ===== -/

structure CreateReq where
  title : String
  writter : String
  story_content : String
  image : Option ImgFile
deriving DecidableEq

inductive ImageCheck where
  | invalid (msg : String)
  | ok (img : Option StoredImage)
deriving DecidableEq

/-- The image branch of the create handler: a missing file or one with
declared size zero is silently ignored; otherwise it is validated and
processed. -/
def imageCheck : Option ImgFile → ImageCheck
  | none => ImageCheck.ok none
  | some f =>
    if 0 < f.size then
      match validateImageFile f with
      | some m => ImageCheck.invalid m
      | none => ImageCheck.ok (some (processImageForDB f))
    else ImageCheck.ok none

inductive CreateOutcome where
  | missingField (msg : String)
  | fieldTooLong (msg : String)
  | badImage (msg : String)
  | dupTitle
  | created (s : StoryDoc)
deriving DecidableEq

/-- The HTTP status the create handler pairs with each outcome. -/
def createStatus : CreateOutcome → Nat
  | CreateOutcome.missingField _ => 400
  | CreateOutcome.fieldTooLong _ => 400
  | CreateOutcome.badImage _ => 400
  | CreateOutcome.dupTitle => 409
  | CreateOutcome.created _ => 201

/-- The POST handler: sanitize fields, required checks, length checks,
image check, duplicate-title lookup, then insert.  The store-assigned id
and timestamp are passed in as parameters. -/
def createStory (db : List StoryDoc) (req : CreateReq) (newId now : Nat) :
    CreateOutcome × List StoryDoc :=
  if sanitizeString req.title = "" then
    (CreateOutcome.missingField ("Title is required"), db)
  else if sanitizeString req.writter = "" then
    (CreateOutcome.missingField ("Writer name is required"), db)
  else if sanitizeString req.story_content = "" then
    (CreateOutcome.missingField ("Story content is required"), db)
  else if MAX_TITLE_LENGTH < (sanitizeString req.title).length then
    (CreateOutcome.fieldTooLong ("Title must be less than 200 characters"), db)
  else if MAX_WRITER_LENGTH < (sanitizeString req.writter).length then
    (CreateOutcome.fieldTooLong ("Writer name must be less than 100 characters"), db)
  else if MAX_CONTENT_LENGTH < (sanitizeString req.story_content).length then
    (CreateOutcome.fieldTooLong ("Story content must be less than 10000 characters"), db)
  else
    match imageCheck req.image with
    | ImageCheck.invalid m => (CreateOutcome.badImage m, db)
    | ImageCheck.ok imageData =>
      match db.find? (fun s => s.title == sanitizeString req.title) with
      | some _ => (CreateOutcome.dupTitle, db)
      | none =>
        (CreateOutcome.created
            ⟨newId, sanitizeString req.title, sanitizeString req.writter,
             sanitizeString req.story_content, imageData, now, now⟩,
         db ++ [⟨newId, sanitizeString req.title, sanitizeString req.writter,
                 sanitizeString req.story_content, imageData, now, now⟩])

/- ===== Update handler ===== -/

structure UpdateReq where
  title : String
  writter : String
  story_content : String
  image : Option ImgFile
  removeImage : Bool
deriving DecidableEq

/-- The image branch of the update handler: removeImage clears the image,
a file with positive declared size is validated and replaces it, and
otherwise the existing image is kept. -/
def updateImage (existing : Option StoredImage) (file : Option ImgFile) (removeImage : Bool) :
    ImageCheck :=
  if removeImage then ImageCheck.ok none
  else
    match file with
    | some f =>
      if 0 < f.size then
        match validateImageFile f with
        | some m => ImageCheck.invalid m
        | none => ImageCheck.ok (some (processImageForDB f))
      else ImageCheck.ok existing
    | none => ImageCheck.ok existing

inductive UpdateOutcome where
  | notFound
  | missingFields
  | tooLong
  | badImage (msg : String)
  | dupTitle
  | updated (s : StoryDoc)
deriving DecidableEq

/-- The HTTP status the update handler pairs with each outcome. -/
def updateStatus : UpdateOutcome → Nat
  | UpdateOutcome.notFound => 404
  | UpdateOutcome.missingFields => 400
  | UpdateOutcome.tooLong => 400
  | UpdateOutcome.badImage _ => 400
  | UpdateOutcome.dupTitle => 409
  | UpdateOutcome.updated _ => 200

/-- The PUT handler: resolve the id, sanitize fields, combined required
check, combined length check, title-conflict lookup against other ids,
image handling, then write back. -/
def updateStory (db : List StoryDoc) (id : Nat) (req : UpdateReq) (now : Nat) :
    UpdateOutcome × List StoryDoc :=
  match db.find? (fun s => s.id == id) with
  | none => (UpdateOutcome.notFound, db)
  | some existingStory =>
    if sanitizeString req.title = "" ∨ sanitizeString req.writter = "" ∨
        sanitizeString req.story_content = "" then
      (UpdateOutcome.missingFields, db)
    else if MAX_TITLE_LENGTH < (sanitizeString req.title).length ∨
        MAX_WRITER_LENGTH < (sanitizeString req.writter).length ∨
        MAX_CONTENT_LENGTH < (sanitizeString req.story_content).length then
      (UpdateOutcome.tooLong, db)
    else
      match db.find? (fun s => s.title == sanitizeString req.title && s.id != id) with
      | some _ => (UpdateOutcome.dupTitle, db)
      | none =>
        match updateImage existingStory.image req.image req.removeImage with
        | ImageCheck.invalid m => (UpdateOutcome.badImage m, db)
        | ImageCheck.ok newImg =>
          (UpdateOutcome.updated
              ⟨existingStory.id, sanitizeString req.title, sanitizeString req.writter,
               sanitizeString req.story_content, newImg, existingStory.createdAt, now⟩,
           db.map (fun s =>
             if s.id == id then
               ⟨existingStory.id, sanitizeString req.title, sanitizeString req.writter,
                sanitizeString req.story_content, newImg, existingStory.createdAt, now⟩
             else s))

/- ===== Error mapper ===== -/

/-- JavaScript String.prototype.includes. -/
def containsSubstr (s pat : String) : Bool := decide (pat.data <:+: s.data)

/-- errorHandler from the service, mapping the message text of the thrown
error to an HTTP status and a response message. -/
def errorHandler (message : String) : Nat × String :=
  if containsSubstr message ("validation") then
    (400, "Validation error: " ++ message)
  else if containsSubstr message ("Cast to ObjectId failed") then
    (400, "Invalid ID format")
  else
    (500, "Internal server error")

/- ===== Statistics endpoint ===== -/

structure StatsResult where
  totalStories : Nat
  totalWriters : Nat
  storiesWithImages : Nat
  storiesWithoutImages : Int
  averageContentLength : Int
  latestStory : Option Nat
deriving DecidableEq

/-- MongoDB round-to-integer, which rounds a half to the nearest even value. -/
def mongoRound (q : ℚ) : Int :=
  if q - (⌊q⌋ : ℚ) < 1 / 2 then ⌊q⌋
  else if (1 : ℚ) / 2 < q - (⌊q⌋ : ℚ) then ⌊q⌋ + 1
  else if ⌊q⌋ % 2 = 0 then ⌊q⌋ else ⌊q⌋ + 1

/-- The aggregation pipeline of the stats endpoint: a single group over the
whole collection, yielding no documents when the collection is empty. -/
def statsAggregate (db : List StoryDoc) : List StatsResult :=
  if db.isEmpty then []
  else
    [⟨db.length,
      (db.map (fun s => s.writter)).dedup.length,
      (db.filter (fun s => s.image.isSome)).length,
      (db.length : Int) - ((db.filter (fun s => s.image.isSome)).length : Int),
      mongoRound ((db.map (fun s => (s.story_content.length : ℚ))).sum / (db.length : ℚ)),
      (db.map (fun s => s.createdAt)).max?⟩]

/-- The stats handler: the first aggregation document, or the zero object
with a null latest timestamp when the pipeline returned nothing, wrapped in
a success envelope. -/
def statsEndpoint (db : List StoryDoc) : Bool × StatsResult :=
  (true, (statsAggregate db).head?.getD ⟨0, 0, 0, 0, 0, none⟩)

/- ===== Specification predicates ===== -/

/-- A string with no leading or trailing JavaScript whitespace. -/
abbrev isTrimmedStr (s : String) : Prop := jsTrimList s.data = s.data

def scriptOpenL : List Char := "<script>".data
def scriptCloseL : List Char := "</script>".data

/-- The string contains an opening script tag followed later by a closing
script tag. -/
def containsScriptSeq (s : String) : Prop :=
  ∃ a b c, s.data = a ++ scriptOpenL ++ b ++ scriptCloseL ++ c

/-- An embedded image with an allow-listed content type and a size within
the configured cap. -/
abbrev goodImage (img : StoredImage) : Prop :=
  img.contentType ∈ ALLOWED_IMAGE_TYPES ∧ img.size ≤ MAX_DB_FILE_SIZE

/-- All embedded images of the collection. -/
def storyImages (db : List StoryDoc) : List StoredImage :=
  db.filterMap (fun s => s.image)

/-- The sanitized text fields of a create request are non-empty and within
the length bounds. -/
abbrev createReqFieldsValid (req : CreateReq) : Prop :=
  sanitizeString req.title ≠ "" ∧ sanitizeString req.writter ≠ "" ∧
  sanitizeString req.story_content ≠ "" ∧
  (sanitizeString req.title).length ≤ MAX_TITLE_LENGTH ∧
  (sanitizeString req.writter).length ≤ MAX_WRITER_LENGTH ∧
  (sanitizeString req.story_content).length ≤ MAX_CONTENT_LENGTH

/-- The sanitized text fields of an update request are non-empty and within
the length bounds. -/
abbrev updateReqFieldsValid (req : UpdateReq) : Prop :=
  sanitizeString req.title ≠ "" ∧ sanitizeString req.writter ≠ "" ∧
  sanitizeString req.story_content ≠ "" ∧
  (sanitizeString req.title).length ≤ MAX_TITLE_LENGTH ∧
  (sanitizeString req.writter).length ≤ MAX_WRITER_LENGTH ∧
  (sanitizeString req.story_content).length ≤ MAX_CONTENT_LENGTH

/-- No two stored stories share a title. -/
abbrev uniqueTitles (db : List StoryDoc) : Prop :=
  ∀ a ∈ db, ∀ b ∈ db, a.title = b.title → a.id = b.id

/- ===== Helper lemmas: dropWhile and trim ===== -/

theorem dropWhile_head_false {α : Type} {p : α → Bool} :
    ∀ {l : List α} {c : α} {t : List α}, l.dropWhile p = c :: t → p c = false := by
  intro l
  induction l with
  | nil => intro c t h; simp [List.dropWhile] at h
  | cons b bs ih =>
    intro c t h
    rw [List.dropWhile_cons] at h
    by_cases hb : p b = true
    · rw [if_pos hb] at h
      exact ih h
    · rw [if_neg hb] at h
      injection h with h1 _
      subst h1
      simpa using hb

theorem dropWhile_idem {α : Type} (p : α → Bool) (l : List α) :
    (l.dropWhile p).dropWhile p = l.dropWhile p := by
  cases h : l.dropWhile p with
  | nil => rfl
  | cons c t =>
    have hc : p c = false := dropWhile_head_false h
    rw [List.dropWhile_cons, hc]
    simp

theorem jsTrimRight_decomp (l : List Char) :
    l = jsTrimRight l ++ (l.reverse.takeWhile isJsWhitespace).reverse := by
  unfold jsTrimRight
  conv_lhs => rw [← l.reverse_reverse,
    ← List.takeWhile_append_dropWhile isJsWhitespace l.reverse]
  rw [List.reverse_append]

theorem jsTrimLeft_of_jsTrim (l : List Char) :
    jsTrimLeft (jsTrimList l) = jsTrimList l := by
  unfold jsTrimList
  cases h : jsTrimRight (jsTrimLeft l) with
  | nil => rfl
  | cons c t =>
    have hdec := jsTrimRight_decomp (jsTrimLeft l)
    rw [h] at hdec
    have hdw : List.dropWhile isJsWhitespace l
        = c :: (t ++ ((jsTrimLeft l).reverse.takeWhile isJsWhitespace).reverse) := by
      simpa [List.cons_append] using hdec
    have hc : isJsWhitespace c = false := dropWhile_head_false hdw
    unfold jsTrimLeft
    rw [List.dropWhile_cons, hc]
    simp

theorem jsTrimRight_idem (l : List Char) :
    jsTrimRight (jsTrimRight l) = jsTrimRight l := by
  unfold jsTrimRight
  rw [List.reverse_reverse, dropWhile_idem]

theorem jsTrim_idem (l : List Char) : jsTrimList (jsTrimList l) = jsTrimList l := by
  conv_lhs => rw [jsTrimList]
  rw [jsTrimLeft_of_jsTrim]
  rw [jsTrimList]
  exact jsTrimRight_idem _

theorem mem_of_mem_jsTrim {c : Char} {l : List Char} (h : c ∈ jsTrimList l) : c ∈ l := by
  unfold jsTrimList jsTrimRight jsTrimLeft at h
  have h1 := List.mem_reverse.mp h
  have h2 := (List.dropWhile_suffix _).subset h1
  have h3 := List.mem_reverse.mp h2
  exact (List.dropWhile_suffix _).subset h3

/- ===== Helper lemmas: the sanitizer on inputs with no angle bracket ===== -/

theorem ciCharEq_lt_false {c : Char} (h : c ≠ '<') : ciCharEq c '<' = false := by
  apply Bool.eq_false_iff.mpr
  intro htrue
  unfold ciCharEq at htrue
  simp only [Bool.or_eq_true, Bool.and_eq_true, decide_eq_true_eq, beq_iff_eq] at htrue
  rcases htrue with h1 | ⟨⟨h2, h3⟩, h4⟩
  · exact h h1
  · have h60 : Char.toNat '<' = 60 := rfl
    rw [h60] at h4
    omega

theorem matchScriptAt_cons_none {c : Char} (cs : List Char) (h : c ≠ '<') :
    matchScriptAt (c :: cs) = none := by
  unfold matchScriptAt
  have hpat : ("<script".data) = '<' :: ("script".data) := rfl
  rw [hpat]
  simp only [startsWithCI, ciCharEq_lt_false h, Bool.false_eq_true, if_false]

theorem stripScriptsAux_no_lt (fuel : Nat) :
    ∀ l : List Char, '<' ∉ l → stripScriptsAux fuel l = l := by
  induction fuel with
  | zero => intro l _; cases l <;> rfl
  | succ n ih =>
    intro l h
    cases l with
    | nil => rfl
    | cons c cs =>
      have hc : c ≠ '<' := fun e => h (e ▸ List.mem_cons_self c cs)
      simp only [stripScriptsAux, matchScriptAt_cons_none cs hc]
      rw [ih cs (fun hm => h (List.mem_cons_of_mem c hm))]

theorem sanitize_no_lt {s : String} (h : '<' ∉ s.data) :
    sanitizeString s = String.mk (jsTrimList s.data) := by
  unfold sanitizeString stripScripts
  rw [stripScriptsAux_no_lt _ _ (fun hm => h (mem_of_mem_jsTrim hm))]

/- ===== Claim C3 ===== -/

/-- Claim C3, counterexample to the claim as stated: on this input the
sanitizer output has leading whitespace (stripping the first script pair
exposes the space the preceding trim could not see) and still contains a
well-formed script open/close sequence (assembled by removing the inner
script pairs). -/
theorem c3_counterexample :
    ¬ isTrimmedStr (sanitizeString
        ("<script></script> <scr<script></script>ipt>x</scr<script></script>ipt>")) ∧
    containsScriptSeq (sanitizeString
        ("<script></script> <scr<script></script>ipt>x</scr<script></script>ipt>")) := by
  constructor
  · decide
  · exact ⟨(" ").data, ("x").data, [], by decide⟩

/-- Claim C3 (amended): the sanitizer returns the trimmed input with the
script-regex matches removed; for inputs that contain no angle bracket the
removal is the identity, so the result is trimmed and free of script
open/close sequences.  In general neither holds, because removal happens
after trimming and can expose whitespace or concatenate fragments into new
script tags. -/
theorem c3_sanitizer_amended (s : String) (h : '<' ∉ s.data) :
    isTrimmedStr (sanitizeString s) ∧ ¬ containsScriptSeq (sanitizeString s) := by
  rw [sanitize_no_lt h]
  constructor
  · exact jsTrim_idem s.data
  · rintro ⟨a, b, c, hd⟩
    have h1 : '<' ∈ scriptOpenL := by decide
    have hbig : '<' ∈ a ++ scriptOpenL ++ b ++ scriptCloseL ++ c := by
      simp only [List.mem_append]
      exact Or.inl (Or.inl (Or.inl (Or.inr h1)))
    have hd2 : jsTrimList s.data = a ++ scriptOpenL ++ b ++ scriptCloseL ++ c := hd
    have hin : '<' ∈ jsTrimList s.data := by rw [hd2]; exact hbig
    exact h (mem_of_mem_jsTrim hin)

/-- Witness for the amended C3 at a concrete bracket-free input. -/
theorem c3_witness :
    ('<' ∉ ("  hello  ").data) ∧
    (isTrimmedStr (sanitizeString ("  hello  ")) ∧
     ¬ containsScriptSeq (sanitizeString ("  hello  "))) :=
  ⟨by decide, c3_sanitizer_amended _ (by decide)⟩

/- ===== Claim C4 ===== -/

/-- Claim C4, counterexample to idempotence as stated: stripping the script
pair exposes a leading space, which a second sanitize then trims away. -/
theorem c4_counterexample :
    sanitizeString (sanitizeString ("<script></script> a")) ≠
      sanitizeString ("<script></script> a") := by decide

/-- Claim C4 (amended): the sanitizer is idempotent on every input without
an angle bracket; the counterexample shows idempotence fails in general. -/
theorem c4_idempotent_amended (s : String) (h : '<' ∉ s.data) :
    sanitizeString (sanitizeString s) = sanitizeString s := by
  rw [sanitize_no_lt h]
  have h2 : '<' ∉ (String.mk (jsTrimList s.data)).data :=
    fun hm => h (mem_of_mem_jsTrim hm)
  rw [sanitize_no_lt h2]
  exact congrArg String.mk (jsTrim_idem s.data)

/-- Witness for the amended C4 at a concrete bracket-free input. -/
theorem c4_witness :
    ('<' ∉ (" x ").data) ∧
    sanitizeString (sanitizeString (" x ")) = sanitizeString (" x ") :=
  ⟨by decide, c4_idempotent_amended _ (by decide)⟩

/- ===== Claim C1 ===== -/

/-- Claim C1, counterexample to the claim as stated: a supplied page or
limit value that does not parse as an integer propagates as NaN through the
max/min clamps instead of falling back to the defaults page 1 and size 10. -/
theorem c1_counterexample :
    pageOf (some ("abc")) = none ∧ limitOf (some ("zzz")) = none ∧
    pageOf (some ("abc")) ≠ some 1 ∧ limitOf (some ("zzz")) ≠ some 10 := by decide

/-- Claim C1 (amended): whenever the page or limit value parses, the page
used is at least 1 and the size lies in one to fifty; an unspecified or
empty value falls back to the defaults page 1 and size 10; a non-empty
unparsable value yields NaN rather than the defaults. -/
theorem c1_pagination_amended (pq lq : Option String) :
    (∀ p, pageOf pq = some p → 1 ≤ p) ∧
    (∀ m, limitOf lq = some m → 1 ≤ m ∧ m ≤ 50) ∧
    (pq = none → pageOf pq = some 1) ∧
    (lq = none → limitOf lq = some 10) ∧
    (pq = some ("") → pageOf pq = some 1) ∧
    (lq = some ("") → limitOf lq = some 10) ∧
    (∀ s, pq = some s → s ≠ "" → jsParseInt s = none → pageOf pq = none) ∧
    (∀ s, lq = some s → s ≠ "" → jsParseInt s = none → limitOf lq = none) := by
  refine ⟨?_, ?_, ?_, ?_, ?_, ?_, ?_, ?_⟩
  · intro p hp
    unfold pageOf at hp
    cases hj : jsParseInt (jsOrDefault pq ("1")) with
    | none => rw [hj] at hp; simp at hp
    | some n =>
      rw [hj] at hp
      simp only [Option.map_some', Option.some.injEq] at hp
      rw [← hp]
      exact le_max_left 1 n
  · intro m hm
    unfold limitOf at hm
    cases hj : jsParseInt (jsOrDefault lq ("10")) with
    | none => rw [hj] at hm; simp at hm
    | some n =>
      rw [hj] at hm
      simp only [Option.map_some', Option.some.injEq] at hm
      rw [← hm]
      exact ⟨le_min (by norm_num) (le_max_left 1 n), min_le_left 50 _⟩
  · intro h; subst h; decide
  · intro h; subst h; decide
  · intro h; subst h; decide
  · intro h; subst h; decide
  · intro s hs hne hj
    subst hs
    unfold pageOf
    rw [show jsOrDefault (some s) ("1") = s from by simp [jsOrDefault, hne], hj]
    rfl
  · intro s hs hne hj
    subst hs
    unfold limitOf
    rw [show jsOrDefault (some s) ("10") = s from by simp [jsOrDefault, hne], hj]
    rfl

/-- Witness for the amended C1: the defaults fire on an empty page and an
unspecified limit, and a concrete unparsable page yields NaN. -/
theorem c1_witness :
    pageOf (some ("")) = some 1 ∧ limitOf none = some 10 ∧
    pageOf (some ("q")) = none :=
  ⟨(c1_pagination_amended (some ("")) none).2.2.2.2.1 rfl,
   (c1_pagination_amended (some ("")) none).2.2.2.1 rfl,
   (c1_pagination_amended (some ("q")) none).2.2.2.2.2.2.1 ("q") rfl
     (by decide) (by decide)⟩

/- ===== Claims about the rate limiter: helper lemmas ===== -/

theorem rlSet_self (st : RLStore) (ip : String) (e : RLEntry) :
    rlSet st ip e ip = some e := by simp [rlSet]

theorem rlRun_saturated (ip : String) (N w r : Nat) :
    ∀ (ts : List Nat) (st : RLStore), st ip = some ⟨N, r⟩ → (∀ t ∈ ts, t ≤ r) →
      rlRun ip N w st ts = (List.replicate ts.length false, st) := by
  intro ts
  induction ts with
  | nil => intro st _ _; simp [rlRun]
  | cons t ts ih =>
    intro st h1 h2
    have hnr : ¬ (r < t) := by
      have := h2 t (List.mem_cons_self t ts)
      omega
    have hstep : simpleRateLimit st ip N w t = (false, st) := by
      simp [simpleRateLimit, h1, hnr]
    simp only [rlRun, hstep]
    rw [ih st h1 (fun x hx => h2 x (List.mem_cons_of_mem t hx))]
    simp [List.replicate_succ]

theorem rlRun_counting (ip : String) (N w r : Nat) :
    ∀ (ts : List Nat) (st : RLStore) (c : Nat), st ip = some ⟨c, r⟩ → 1 ≤ c → c ≤ N →
      (∀ t ∈ ts, t ≤ r) →
      (rlRun ip N w st ts).1 = (List.range ts.length).map (fun i => decide (c + i < N)) ∧
      (rlRun ip N w st ts).2 ip = some ⟨min (c + ts.length) N, r⟩ := by
  intro ts
  induction ts with
  | nil =>
    intro st c h1 _ hcN _
    refine ⟨by simp [rlRun], ?_⟩
    simp only [rlRun, List.length_nil, Nat.add_zero]
    rw [h1, Nat.min_eq_left hcN]
  | cons t ts ih =>
    intro st c h1 hc1 hcN hts
    have hnr : ¬ (r < t) := by
      have := hts t (List.mem_cons_self t ts)
      omega
    by_cases hlt : c < N
    · have hstep : simpleRateLimit st ip N w t = (true, rlSet st ip ⟨c + 1, r⟩) := by
        simp [simpleRateLimit, h1, hnr, Nat.not_le.mpr hlt]
      obtain ⟨ihA, ihS⟩ := ih (rlSet st ip ⟨c + 1, r⟩) (c + 1) (rlSet_self st ip _)
        (by omega) (by omega) (fun x hx => hts x (List.mem_cons_of_mem t hx))
      constructor
      · simp only [rlRun, hstep]
        rw [ihA, List.length_cons, List.range_succ_eq_map, List.map_cons, List.map_map]
        congr 1
        · exact (decide_eq_true (by omega)).symm
        · apply List.map_congr_left
          intro a _
          exact decide_eq_decide.mpr (by omega)
      · simp only [rlRun, hstep]
        rw [ihS, List.length_cons]
        have harith : c + 1 + ts.length = c + (ts.length + 1) := by omega
        rw [harith]
    · have hceq : c = N := by omega
      subst hceq
      have hstep : simpleRateLimit st ip c w t = (false, st) := by
        simp [simpleRateLimit, h1, hnr]
      have hsat := rlRun_saturated ip c w r ts st h1
        (fun x hx => hts x (List.mem_cons_of_mem t hx))
      constructor
      · simp only [rlRun, hstep]
        rw [hsat]
        have hmap : (List.range (ts.length + 1)).map (fun i => decide (c + i < c))
            = List.replicate (ts.length + 1) false := by
          have hall : ∀ a ∈ List.range (ts.length + 1),
              decide (c + a < c) = Function.const Nat false a := by
            intro a _
            simp only [Function.const_apply]
            exact decide_eq_false (by omega)
          rw [List.map_congr_left hall, List.map_const, List.length_range]
        rw [List.length_cons, hmap]
        simp [List.replicate_succ]
      · simp only [rlRun, hstep]
        rw [hsat, List.length_cons]
        simp only [h1]
        rw [Nat.min_eq_right (by omega)]

/- ===== Claim C2 ===== -/

/-- Claim C2 (confirmed): starting from a fresh window, with limit N at
least one, a first request at time t0 followed by requests at times within
the window (at most t0 plus the window length, the stored reset time):
request number i is allowed exactly when i is at most N, the stored counter
is capped at N (rejected calls do not increment it), and the first request
strictly after the reset time is allowed again with the counter reset to 1. -/
theorem c2_rate_limit_window (ip : String) (N w t0 tNext : Nat) (ts : List Nat)
    (hN : 1 ≤ N) (hts : ∀ t ∈ ts, t ≤ t0 + w) (hNext : t0 + w < tNext) :
    (rlRun ip N w emptyRLStore (t0 :: ts)).1
        = (List.range (ts.length + 1)).map (fun i => decide (i < N)) ∧
    (rlRun ip N w emptyRLStore (t0 :: ts)).2 ip = some ⟨min (1 + ts.length) N, t0 + w⟩ ∧
    (simpleRateLimit ((rlRun ip N w emptyRLStore (t0 :: ts)).2) ip N w tNext).1 = true ∧
    (simpleRateLimit ((rlRun ip N w emptyRLStore (t0 :: ts)).2) ip N w tNext).2 ip
        = some ⟨1, tNext + w⟩ := by
  have hstep0 : simpleRateLimit emptyRLStore ip N w t0
      = (true, rlSet emptyRLStore ip ⟨1, t0 + w⟩) := by
    simp [simpleRateLimit, emptyRLStore]
  obtain ⟨hA, hS⟩ := rlRun_counting ip N w (t0 + w) ts (rlSet emptyRLStore ip ⟨1, t0 + w⟩) 1
    (rlSet_self _ _ _) (le_refl 1) hN hts
  have hrun1 : (rlRun ip N w emptyRLStore (t0 :: ts)).1
      = true :: (rlRun ip N w (rlSet emptyRLStore ip ⟨1, t0 + w⟩) ts).1 := by
    simp only [rlRun, hstep0]
  have hrun2 : (rlRun ip N w emptyRLStore (t0 :: ts)).2
      = (rlRun ip N w (rlSet emptyRLStore ip ⟨1, t0 + w⟩) ts).2 := by
    simp only [rlRun, hstep0]
  have hst : (rlRun ip N w emptyRLStore (t0 :: ts)).2 ip
      = some ⟨min (1 + ts.length) N, t0 + w⟩ := by
    rw [hrun2]
    exact hS
  refine ⟨?_, hst, ?_, ?_⟩
  · rw [hrun1, hA, List.range_succ_eq_map, List.map_cons, List.map_map]
    congr 1
    · exact (decide_eq_true (by omega)).symm
    · apply List.map_congr_left
      intro a _
      exact decide_eq_decide.mpr (by omega)
  · simp [simpleRateLimit, hst, hNext]
  · simp [simpleRateLimit, hst, hNext, rlSet]

/-- Witness for C2 with limit 2, window 10, requests at times 0, 1, 2, 3
and a final request at time 100. -/
theorem c2_witness :
    (1 ≤ 2 ∧ (∀ t ∈ [1, 2, 3], t ≤ 0 + 10) ∧ 0 + 10 < 100) ∧
    ((rlRun ("a") 2 10 emptyRLStore (0 :: [1, 2, 3])).1
        = (List.range ([1, 2, 3].length + 1)).map (fun i => decide (i < 2)) ∧
     (rlRun ("a") 2 10 emptyRLStore (0 :: [1, 2, 3])).2 ("a")
        = some ⟨min (1 + [1, 2, 3].length) 2, 0 + 10⟩ ∧
     (simpleRateLimit ((rlRun ("a") 2 10 emptyRLStore (0 :: [1, 2, 3])).2) ("a") 2 10 100).1
        = true ∧
     (simpleRateLimit ((rlRun ("a") 2 10 emptyRLStore (0 :: [1, 2, 3])).2) ("a") 2 10 100).2 ("a")
        = some ⟨1, 100 + 10⟩) :=
  ⟨⟨by decide, by decide, by decide⟩,
   c2_rate_limit_window ("a") 2 10 0 100 [1, 2, 3] (by decide) (by decide) (by decide)⟩

/- ===== Claim C5 ===== -/

/-- Claim C5, counterexample to the claim as stated: a create request whose
sanitized title duplicates a stored title but whose writer field is empty is
rejected by the earlier required-field check with status 400, not by the
duplicate-title check with status 409. -/
theorem c5_counterexample :
    (∃ s ∈ [(⟨7, "T", "w", "c", none, 0, 0⟩ : StoryDoc)], s.title = sanitizeString ("T")) ∧
    (createStory [(⟨7, "T", "w", "c", none, 0, 0⟩ : StoryDoc)] ⟨"T", "", "c", none⟩ 9 3).1
        ≠ CreateOutcome.dupTitle ∧
    createStatus (createStory [(⟨7, "T", "w", "c", none, 0, 0⟩ : StoryDoc)]
        ⟨"T", "", "c", none⟩ 9 3).1 = 400 := by decide

/-- Claim C5 (amended): for every create request that passes the
required-field, length and image checks, if the sanitized title equals the
title of a stored story then the outcome is the duplicate-title failure with
status 409 and the collection is unchanged. -/
theorem c5_duplicate_create_amended (db : List StoryDoc) (req : CreateReq) (newId now : Nat)
    (hval : createReqFieldsValid req)
    (hImg : ∀ m, imageCheck req.image ≠ ImageCheck.invalid m)
    (hDup : ∃ s ∈ db, s.title = sanitizeString req.title) :
    (createStory db req newId now).1 = CreateOutcome.dupTitle ∧
    createStatus (createStory db req newId now).1 = 409 ∧
    (createStory db req newId now).2 = db := by
  obtain ⟨hT, hW, hC, hLT, hLW, hLC⟩ := hval
  have hfind : (db.find? (fun s => s.title == sanitizeString req.title)).isSome := by
    apply List.find?_isSome.mpr
    obtain ⟨s, hs, hts⟩ := hDup
    exact ⟨s, hs, beq_iff_eq.mpr hts⟩
  obtain ⟨a, ha⟩ := Option.isSome_iff_exists.mp hfind
  cases hic : imageCheck req.image with
  | invalid m => exact absurd hic (hImg m)
  | ok d =>
    unfold createStory
    rw [if_neg hT, if_neg hW, if_neg hC, if_neg (Nat.not_lt.mpr hLT),
        if_neg (Nat.not_lt.mpr hLW), if_neg (Nat.not_lt.mpr hLC), hic, ha]
    exact ⟨rfl, rfl, rfl⟩

/-- Witness for the amended C5: a request whose title sanitizes to a stored
title is rejected as a duplicate with the collection unchanged. -/
theorem c5_witness :
    createReqFieldsValid ⟨" T ", "Bob", "Story", none⟩ ∧
    (∃ s ∈ [(⟨7, "T", "w", "c", none, 0, 0⟩ : StoryDoc)], s.title = sanitizeString (" T ")) ∧
    ((createStory [(⟨7, "T", "w", "c", none, 0, 0⟩ : StoryDoc)]
        ⟨" T ", "Bob", "Story", none⟩ 9 3).1 = CreateOutcome.dupTitle ∧
     createStatus (createStory [(⟨7, "T", "w", "c", none, 0, 0⟩ : StoryDoc)]
        ⟨" T ", "Bob", "Story", none⟩ 9 3).1 = 409 ∧
     (createStory [(⟨7, "T", "w", "c", none, 0, 0⟩ : StoryDoc)]
        ⟨" T ", "Bob", "Story", none⟩ 9 3).2 = [(⟨7, "T", "w", "c", none, 0, 0⟩ : StoryDoc)]) :=
  ⟨by decide, by decide,
   c5_duplicate_create_amended _ _ 9 3 (by decide)
     (fun m h => by simp [imageCheck] at h) (by decide)⟩

/- ===== Claim C9 ===== -/

/-- Claim C9, counterexample to the claim as stated: a create request with
valid text fields and a zero-size image file still fails with the
duplicate-title outcome, status 409 rather than 201, when its title is
already stored. -/
theorem c9_counterexample :
    createReqFieldsValid ⟨"T", "w", "c", some ⟨"application/pdf", 0, "x.pdf", []⟩⟩ ∧
    (createStory [(⟨1, "T", "w", "c", none, 0, 0⟩ : StoryDoc)]
        ⟨"T", "w", "c", some ⟨"application/pdf", 0, "x.pdf", []⟩⟩ 2 0).1
        = CreateOutcome.dupTitle ∧
    createStatus (createStory [(⟨1, "T", "w", "c", none, 0, 0⟩ : StoryDoc)]
        ⟨"T", "w", "c", some ⟨"application/pdf", 0, "x.pdf", []⟩⟩ 2 0).1 ≠ 201 := by decide

/-- Claim C9 (amended): a create request with an image file of declared size
zero, valid text fields and a title not already stored succeeds with status
201, the file is silently ignored with no type or size validation (the file
descriptor here is arbitrary), the stored story has no image, and the
response image field is null. -/
theorem c9_zero_size_image_amended (db : List StoryDoc) (req : CreateReq) (f : ImgFile)
    (newId now : Nat) (hf : req.image = some f) (hsz : f.size = 0)
    (hval : createReqFieldsValid req)
    (hND : db.find? (fun s => s.title == sanitizeString req.title) = none) :
    (createStory db req newId now).1
        = CreateOutcome.created ⟨newId, sanitizeString req.title, sanitizeString req.writter,
            sanitizeString req.story_content, none, now, now⟩ ∧
    (createStory db req newId now).2
        = db ++ [⟨newId, sanitizeString req.title, sanitizeString req.writter,
            sanitizeString req.story_content, none, now, now⟩] ∧
    storyResponseImage ⟨newId, sanitizeString req.title, sanitizeString req.writter,
        sanitizeString req.story_content, none, now, now⟩ = none ∧
    createStatus (createStory db req newId now).1 = 201 := by
  obtain ⟨hT, hW, hC, hLT, hLW, hLC⟩ := hval
  have hic : imageCheck req.image = ImageCheck.ok none := by
    rw [hf]
    simp [imageCheck, hsz]
  unfold createStory
  rw [if_neg hT, if_neg hW, if_neg hC, if_neg (Nat.not_lt.mpr hLT),
      if_neg (Nat.not_lt.mpr hLW), if_neg (Nat.not_lt.mpr hLC), hic, hND]
  exact ⟨rfl, rfl, rfl, rfl⟩

/-- Witness for the amended C9: a fresh create with a zero-size file of a
non-image declared type succeeds and stores no image. -/
theorem c9_witness :
    (createStory [] ⟨"T", "w", "c", some ⟨"application/pdf", 0, "x.pdf", []⟩⟩ 2 5).1
        = CreateOutcome.created ⟨2, sanitizeString ("T"), sanitizeString ("w"),
            sanitizeString ("c"), none, 5, 5⟩ ∧
    (createStory [] ⟨"T", "w", "c", some ⟨"application/pdf", 0, "x.pdf", []⟩⟩ 2 5).2
        = [] ++ [⟨2, sanitizeString ("T"), sanitizeString ("w"), sanitizeString ("c"),
            none, 5, 5⟩] ∧
    storyResponseImage ⟨2, sanitizeString ("T"), sanitizeString ("w"), sanitizeString ("c"),
        none, 5, 5⟩ = none ∧
    createStatus (createStory [] ⟨"T", "w", "c",
        some ⟨"application/pdf", 0, "x.pdf", []⟩⟩ 2 5).1 = 201 :=
  c9_zero_size_image_amended [] _ _ 2 5 rfl rfl (by decide) rfl

/- ===== Claim C6 ===== -/

/-- Claim C6, counterexample to the claim as stated: an update whose new
title collides with a different existing story but whose writer field is
empty fails with the required-field outcome, status 400, not with the
duplicate-title outcome, although the collision condition holds. -/
theorem c6_counterexample :
    (∃ s ∈ [(⟨1, "A", "w", "c", none, 0, 0⟩ : StoryDoc), ⟨2, "B", "w", "c", none, 0, 0⟩],
        s.id ≠ 1 ∧ s.title = sanitizeString ("B")) ∧
    (updateStory [(⟨1, "A", "w", "c", none, 0, 0⟩ : StoryDoc), ⟨2, "B", "w", "c", none, 0, 0⟩]
        1 ⟨"B", "", "x", none, false⟩ 5).1 ≠ UpdateOutcome.dupTitle ∧
    updateStatus (updateStory
        [(⟨1, "A", "w", "c", none, 0, 0⟩ : StoryDoc), ⟨2, "B", "w", "c", none, 0, 0⟩]
        1 ⟨"B", "", "x", none, false⟩ 5).1 = 400 := by decide

/-- Claim C6 (amended): an update whose id does not resolve fails with
NotFound, status 404, and leaves the collection unchanged; the HTTP status
of the duplicate outcome is 409; and for requests passing the required-field
and length checks on a resolving id, the outcome is duplicate-title exactly
when a different stored story carries the sanitized new title — in
particular, when stored titles are unique, keeping the current title of the
story being updated never fails as a duplicate. -/
theorem c6_update_amended (db : List StoryDoc) (id : Nat) (req : UpdateReq) (now : Nat) :
    (db.find? (fun s => s.id == id) = none →
      updateStory db id req now = (UpdateOutcome.notFound, db) ∧
      updateStatus (updateStory db id req now).1 = 404) ∧
    ((updateStory db id req now).1 = UpdateOutcome.dupTitle →
      updateStatus (updateStory db id req now).1 = 409) ∧
    (updateReqFieldsValid req → ∀ st, db.find? (fun s => s.id == id) = some st →
      (((updateStory db id req now).1 = UpdateOutcome.dupTitle) ↔
        ∃ s ∈ db, s.id ≠ id ∧ s.title = sanitizeString req.title) ∧
      (uniqueTitles db → sanitizeString req.title = st.title →
        (updateStory db id req now).1 ≠ UpdateOutcome.dupTitle)) := by
  refine ⟨?_, ?_, ?_⟩
  · intro h
    constructor
    · simp [updateStory, h]
    · simp [updateStory, h, updateStatus]
  · intro h
    rw [h]
    rfl
  · intro hv st hst
    obtain ⟨hT, hW, hC, hLT, hLW, hLC⟩ := hv
    have hc1 : ¬(sanitizeString req.title = "" ∨ sanitizeString req.writter = "" ∨
        sanitizeString req.story_content = "") :=
      fun h => h.elim hT (fun h2 => h2.elim hW hC)
    have hc2 : ¬(MAX_TITLE_LENGTH < (sanitizeString req.title).length ∨
        MAX_WRITER_LENGTH < (sanitizeString req.writter).length ∨
        MAX_CONTENT_LENGTH < (sanitizeString req.story_content).length) := by
      rintro (h | h | h) <;> omega
    cases hf2 : db.find? (fun s => s.title == sanitizeString req.title && s.id != id) with
    | some a =>
      have houtcome : (updateStory db id req now).1 = UpdateOutcome.dupTitle := by
        simp [updateStory, hst, hc1, hc2, hf2]
      have hpair := List.find?_some hf2
      rw [Bool.and_eq_true, beq_iff_eq, bne_iff_ne] at hpair
      have hmem := List.mem_of_find?_eq_some hf2
      constructor
      · constructor
        · intro _
          exact ⟨a, hmem, hpair.2, hpair.1⟩
        · intro _
          exact houtcome
      · intro huniq hown _
        have hb := List.find?_some hst
        have hstid : st.id = id := beq_iff_eq.mp hb
        have hmem2 := List.mem_of_find?_eq_some hst
        exact hpair.2 ((huniq a hmem st hmem2 (hpair.1.trans hown)).trans hstid)
    | none =>
      have houtcome : (updateStory db id req now).1 ≠ UpdateOutcome.dupTitle := by
        cases hui : updateImage st.image req.image req.removeImage with
        | invalid m => simp [updateStory, hst, hc1, hc2, hf2, hui]
        | ok newImg => simp [updateStory, hst, hc1, hc2, hf2, hui]
      constructor
      · constructor
        · intro h
          exact absurd h houtcome
        · rintro ⟨s, hs, hsid, hstt⟩
          exfalso
          apply List.find?_eq_none.mp hf2 s hs
          rw [Bool.and_eq_true, beq_iff_eq, bne_iff_ne]
          exact ⟨hstt, hsid⟩
      · intro _ _
        exact houtcome

/-- Witness for the amended C6: with unique stored titles, an update that
keeps its own title is not rejected as a duplicate. -/
theorem c6_witness :
    updateReqFieldsValid ⟨"A", "w2", "c2", none, false⟩ ∧
    uniqueTitles [(⟨1, "A", "w", "c", none, 0, 0⟩ : StoryDoc), ⟨2, "B", "w", "c", none, 0, 0⟩] ∧
    (updateStory [(⟨1, "A", "w", "c", none, 0, 0⟩ : StoryDoc), ⟨2, "B", "w", "c", none, 0, 0⟩]
        1 ⟨"A", "w2", "c2", none, false⟩ 5).1 ≠ UpdateOutcome.dupTitle :=
  ⟨by decide, by decide,
   ((c6_update_amended [⟨1, "A", "w", "c", none, 0, 0⟩, ⟨2, "B", "w", "c", none, 0, 0⟩]
       1 ⟨"A", "w2", "c2", none, false⟩ 5).2.2 (by decide) ⟨1, "A", "w", "c", none, 0, 0⟩
       (by decide)).2 (by decide) (by decide)⟩

/- ===== Claim C7: helper lemmas ===== -/

theorem validateImageFile_none_iff (f : ImgFile) :
    validateImageFile f = none ↔
      (f.type ∈ ALLOWED_IMAGE_TYPES ∧ f.size ≤ MAX_DB_FILE_SIZE) := by
  unfold validateImageFile
  by_cases h1 : f.type ∈ ALLOWED_IMAGE_TYPES
  · by_cases h2 : MAX_DB_FILE_SIZE < f.size
    · rw [if_neg (not_not.mpr h1), if_pos h2]
      constructor
      · intro h
        exact absurd h (by simp)
      · rintro ⟨_, hle⟩
        omega
    · rw [if_neg (not_not.mpr h1), if_neg h2]
      constructor
      · intro _
        exact ⟨h1, Nat.not_lt.mp h2⟩
      · intro _
        rfl
  · rw [if_pos h1]
    constructor
    · intro h
      exact absurd h (by simp)
    · rintro ⟨hmem, _⟩
      exact absurd hmem h1

theorem imageCheck_ok_good {o : Option ImgFile} {img : StoredImage}
    (h : imageCheck o = ImageCheck.ok (some img)) : goodImage img := by
  cases o with
  | none => simp [imageCheck] at h
  | some f =>
    by_cases hsz : 0 < f.size
    · simp only [imageCheck, hsz, if_true] at h
      cases hv : validateImageFile f with
      | some m =>
        rw [hv] at h
        simp at h
      | none =>
        rw [hv] at h
        simp only [ImageCheck.ok.injEq, Option.some.injEq] at h
        obtain ⟨hmem, hle⟩ := (validateImageFile_none_iff f).mp hv
        rw [← h]
        exact ⟨hmem, hle⟩
    · simp only [imageCheck, hsz, if_false] at h
      simp at h

theorem updateImage_ok_cases {ex : Option StoredImage} {file : Option ImgFile} {rm : Bool}
    {img : StoredImage} (h : updateImage ex file rm = ImageCheck.ok (some img)) :
    ex = some img ∨ goodImage img := by
  by_cases hrm : rm = true
  · simp only [updateImage, hrm, if_true] at h
    simp at h
  · cases file with
    | none =>
      left
      simp only [updateImage, hrm, if_false] at h
      simpa using h
    | some f =>
      by_cases hsz : 0 < f.size
      · cases hv : validateImageFile f with
        | some m =>
          simp [updateImage, hrm, hsz, hv] at h
        | none =>
          simp only [updateImage, hrm, hsz, hv, if_true, if_false] at h
          simp only [Bool.false_eq_true, if_false, ImageCheck.ok.injEq,
            Option.some.injEq] at h
          right
          obtain ⟨hmem, hle⟩ := (validateImageFile_none_iff f).mp hv
          subst h
          exact ⟨hmem, hle⟩
      · simp only [updateImage, hrm, hsz, if_false] at h
        left
        simpa using h

theorem createStory_preserves_goodImage (db : List StoryDoc) (req : CreateReq)
    (newId now : Nat) (hdb : ∀ img ∈ storyImages db, goodImage img) :
    ∀ img ∈ storyImages (createStory db req newId now).2, goodImage img := by
  unfold createStory
  split_ifs with h1 h2 h3 h4 h5 h6
  · exact hdb
  · exact hdb
  · exact hdb
  · exact hdb
  · exact hdb
  · exact hdb
  · cases hic : imageCheck req.image with
    | invalid m =>
      simp only [hic]
      exact hdb
    | ok d =>
      simp only [hic]
      cases hfd : db.find? (fun s => s.title == sanitizeString req.title) with
      | some a =>
        simp only [hfd]
        exact hdb
      | none =>
        simp only [hfd]
        intro img hmem
        unfold storyImages at hmem
        rw [List.filterMap_append] at hmem
        rcases List.mem_append.mp hmem with hl | hr
        · exact hdb img hl
        · cases d with
          | none => simp [List.filterMap_cons] at hr
          | some i =>
            simp only [List.filterMap_cons] at hr
            have himg : img = i := by simpa using hr
            rw [himg]
            exact imageCheck_ok_good hic

theorem updateStory_preserves_goodImage (db : List StoryDoc) (id : Nat) (req : UpdateReq)
    (now : Nat) (hdb : ∀ img ∈ storyImages db, goodImage img) :
    ∀ img ∈ storyImages (updateStory db id req now).2, goodImage img := by
  unfold updateStory
  cases hfind : db.find? (fun s => s.id == id) with
  | none =>
    simp only [hfind]
    exact hdb
  | some st =>
    simp only [hfind]
    split_ifs with h1 h2
    · exact hdb
    · exact hdb
    · cases hf2 : db.find? (fun s => s.title == sanitizeString req.title && s.id != id) with
      | some a =>
        simp only [hf2]
        exact hdb
      | none =>
        simp only [hf2]
        cases hui : updateImage st.image req.image req.removeImage with
        | invalid m =>
          simp only [hui]
          exact hdb
        | ok newImg =>
          simp only [hui]
          intro img hmem
          unfold storyImages at hmem
          rw [List.mem_filterMap] at hmem
          obtain ⟨s', hs', himg⟩ := hmem
          rw [List.mem_map] at hs'
          obtain ⟨s, hs, hgs⟩ := hs'
          by_cases hsid : (s.id == id) = true
          · rw [if_pos hsid] at hgs
            rw [← hgs] at himg
            have himg2 : newImg = some img := himg
            rw [himg2] at hui
            rcases updateImage_ok_cases hui with hex | hgood
            · have hstmem := List.mem_of_find?_eq_some hfind
              apply hdb
              unfold storyImages
              rw [List.mem_filterMap]
              exact ⟨st, hstmem, hex⟩
            · exact hgood
          · rw [if_neg hsid] at hgs
            rw [← hgs] at himg
            apply hdb
            unfold storyImages
            rw [List.mem_filterMap]
            exact ⟨s, hs, himg⟩

/- ===== Claim C7 ===== -/

/-- Claim C7, counterexample to the claim as stated: a file whose declared
size is exactly the 10 MB cap passes validation and is stored, so a stored
image need not have a size strictly below the ceiling. -/
theorem c7_counterexample :
    validateImageFile ⟨"image/png", 10485760, "big.png", []⟩ = none ∧
    (∃ img ∈ storyImages (createStory []
        ⟨"T", "w", "c", some ⟨"image/png", 10485760, "big.png", []⟩⟩ 1 0).2,
      ¬ (img.size < MAX_DB_FILE_SIZE)) := by decide

/-- Claim C7 (amended): validation fails exactly when the declared content
type is outside the allow-list or the declared size strictly exceeds the
10 MB cap; consequently both the create and the update operation preserve
the invariant that every stored image has an allow-listed content type and
a size of at most (not strictly below) the cap. -/
theorem c7_image_validation_amended :
    (∀ f : ImgFile, validateImageFile f = none ↔
        (f.type ∈ ALLOWED_IMAGE_TYPES ∧ f.size ≤ MAX_DB_FILE_SIZE)) ∧
    (∀ (db : List StoryDoc) (req : CreateReq) (newId now : Nat),
        (∀ img ∈ storyImages db, goodImage img) →
        ∀ img ∈ storyImages (createStory db req newId now).2, goodImage img) ∧
    (∀ (db : List StoryDoc) (id : Nat) (req : UpdateReq) (now : Nat),
        (∀ img ∈ storyImages db, goodImage img) →
        ∀ img ∈ storyImages (updateStory db id req now).2, goodImage img) :=
  ⟨validateImageFile_none_iff, createStory_preserves_goodImage,
   updateStory_preserves_goodImage⟩

/-- Witness for the amended C7: the invariant propagates through a concrete
create on the empty collection. -/
theorem c7_witness :
    (∀ img ∈ storyImages ([] : List StoryDoc), goodImage img) ∧
    (∀ img ∈ storyImages (createStory []
        ⟨"T", "w", "c", some ⟨"image/png", 3, "a.png", [1, 2, 3]⟩⟩ 2 0).2, goodImage img) :=
  ⟨by decide,
   c7_image_validation_amended.2.1 [] ⟨"T", "w", "c", some ⟨"image/png", 3, "a.png", [1, 2, 3]⟩⟩
     2 0 (by decide)⟩

/- ===== Claim C8 ===== -/

/-- Claim C8, counterexample to the claim as stated: in the validation
branch the response message embeds the message text of the underlying
error, so internal error detail does reach the client. -/
theorem c8_counterexample :
    (errorHandler ("validation failed: secret db detail")).2
        = "Validation error: " ++ ("validation failed: secret db detail") ∧
    ("validation failed: secret db detail").data
        <:+: (errorHandler ("validation failed: secret db detail")).2.data := by
  constructor
  · decide
  · decide

/-- Claim C8 (amended): for every error message, the response is either the
fixed generic invalid-id response with status 400, the fixed generic
internal-error response with status 500, or — when the message contains the
word validation — a status 400 response whose body embeds the underlying
error message text. -/
theorem c8_error_mapper_amended (message : String) :
    errorHandler message = (400, "Invalid ID format") ∨
    errorHandler message = (500, "Internal server error") ∨
    ((errorHandler message).1 = 400 ∧
     (errorHandler message).2 = "Validation error: " ++ message ∧
     message.data <:+: (errorHandler message).2.data) := by
  by_cases h1 : containsSubstr message ("validation") = true
  · right
    right
    have he : errorHandler message = (400, "Validation error: " ++ message) := by
      simp [errorHandler, h1]
    refine ⟨by rw [he], by rw [he], ?_⟩
    rw [he]
    exact ⟨("Validation error: ").data, [], by simp [String.data_append]⟩
  · by_cases h2 : containsSubstr message ("Cast to ObjectId failed") = true
    · left
      simp [errorHandler, h1, h2]
    · right
      left
      simp [errorHandler, h1, h2]

/- ===== Claim C10 ===== -/

/-- Claim C10 (confirmed): on the empty collection the aggregation pipeline
yields no documents, the handler falls back to the literal zero object with
a null latest timestamp, and the envelope reports success. -/
theorem c10_stats_empty :
    statsEndpoint [] = (true, ⟨0, 0, 0, 0, 0, none⟩) := rfl
